import Mathlib

/-!
Verification of the payment-note extractor (`src/venmo_email.py`,
`EmailProcessor.parse_venmo_email`) and the generation dispatcher
(`src/main.py`: `GENERATION_LOCK`, `can_generate_new_app`,
`start_generation`, `end_generation`, and the call sites
`generate_app_route`, `process_vibepay_payment`,
`generate_app_for_payment`, `VenmoQRManager.handle_payment`).

Strings are modelled as `List Char`; the Python regular expressions used
by the parser are each embedded as a dedicated scanner with Python's
leftmost-match / greedy / lazy semantics.  Character classes (`\d`, `\s`,
`\w`, `str.lower`, `str.strip`) are modelled over ASCII, which covers the
notification emails this parser targets.  `time.time()` values are
modelled as rationals.  `float` parsing is exact (the inputs reaching it
are short decimal literals).
-/

/-- Python whitespace (`\s`, `str.strip`), ASCII part. -/
def pySpace (c : Char) : Bool :=
  c = ' ' || c = '\t' || c = '\n' || c = '\r' || c = '\x0b' || c = '\x0c'

/-- Python `str.strip()`. -/
def pyStrip (l : List Char) : List Char :=
  ((l.dropWhile pySpace).reverse.dropWhile pySpace).reverse

/-- Python `str.lower()`, ASCII part. -/
def lowerStr (l : List Char) : List Char := l.map Char.toLower

/-- Python substring test `needle in hay`. -/
def subIn (needle : List Char) : List Char → Bool
  | [] => needle.isEmpty
  | c :: rest => needle.isPrefixOf (c :: rest) || subIn needle rest

/-- Case-insensitive prefix test; `pat` is given in lowercase. -/
def ciStarts : List Char → List Char → Bool
  | [], _ => true
  | _ :: _, [] => false
  | p :: ps, c :: cs => (p = Char.toLower c) && ciStarts ps cs

/-- First position (scanning left to right) where `f` produces a match:
Python `re.search` position scan. -/
def scan1 (f : List Char → Option (List Char)) : List Char → Option (List Char)
  | [] => none
  | c :: rest => (f (c :: rest)).orElse (fun _ => scan1 f rest)

/-- The class `[\d,.]` of the amount pattern. -/
def isAmountChar (c : Char) : Bool := c.isDigit || c = ',' || c = '.'

/-- Match of `paid you \$([\d,.]+)` anchored at the current position;
returns the (greedy) group. -/
def amountAt (l : List Char) : Option (List Char) :=
  if ("paid you $".data).isPrefixOf l then
    if ((l.drop 10).takeWhile isAmountChar).isEmpty then none
    else some ((l.drop 10).takeWhile isAmountChar)
  else none

/-- `re.search(r'paid you \$([\d,.]+)', text)`, returning the group. -/
def searchAmount (l : List Char) : Option (List Char) := scan1 amountAt l

/-- Decimal value of a digit list. -/
def digitsVal (l : List Char) : Nat :=
  l.foldl (fun a c => a * 10 + (c.toNat - 48)) 0

/-- Value of a decimal literal with integer part `i`, fraction digits
valued `f`, and `k` fraction places. -/
def ratOfParts (i f k : Nat) : ℚ := (i : ℚ) + (f : ℚ) / (10 : ℚ) ^ k

/-- Python `float()` on the comma-stripped group (digits and dots):
accepts at most one dot and at least one digit, else `ValueError`. -/
def pyFloat? (l : List Char) : Option ℚ :=
  if l.all (fun c => c.isDigit || c = '.') && l.any Char.isDigit
      && decide (l.count '.' ≤ 1) then
    let ip := l.takeWhile (fun c => c ≠ '.')
    let fp := (l.dropWhile (fun c => c ≠ '.')).drop 1
    some (ratOfParts (digitsVal ip) (digitsVal fp) fp.length)
  else none

/-- The class `[A-Za-z\s]` of the sender pattern. -/
def isNameChar (c : Char) : Bool := c.isAlpha || pySpace c

/-- Greedy backtracking for `([A-Za-z\s]+) paid you` at a fixed position:
try the group length `k` from largest to smallest. -/
def senderK (l : List Char) : Nat → Option (List Char)
  | 0 => none
  | k + 1 =>
    if (" paid you".data).isPrefixOf (l.drop (k + 1)) then some (l.take (k + 1))
    else senderK l k

/-- Match of `([A-Za-z\s]+) paid you` anchored at the current position. -/
def senderAt (l : List Char) : Option (List Char) :=
  senderK l (l.takeWhile isNameChar).length

/-- `re.search(r'([A-Za-z\s]+) paid you', text)`, returning the group. -/
def searchSender (l : List Char) : Option (List Char) := scan1 senderAt l

/-- First offset where one of the lazy-group terminators
`View` / `Note:` / `Payment ID:` matches case-insensitively, or the end of
the text (the `$` alternative). -/
def termPos : List Char → Nat
  | [] => 0
  | c :: rest =>
    if ciStarts ("view".data) (c :: rest) || ciStarts ("note:".data) (c :: rest)
        || ciStarts ("payment id:".data) (c :: rest) then 0
    else 1 + termPos rest

/-- Match of `paid you \$[\d,.\n]+(.*?)(?:View|Note:|Payment ID:|$)`
(IGNORECASE, DOTALL) anchored at the current position.  The text it is
applied to (`entire_body`) contains no newline, so `$` is end-of-text. -/
def fullAt (l : List Char) : Option (List Char) :=
  if ciStarts ("paid you $".data) l then
    let g := (l.drop 10).takeWhile (fun c => isAmountChar c || c = '\n')
    if g.isEmpty then none
    else
      let rem := (l.drop 10).drop g.length
      some (rem.take (termPos rem))
  else none

/-- `re.search` of the full pattern over `entire_body`. -/
def searchFull (l : List Char) : Option (List Char) := scan1 fullAt l

/-- Match of `"([^"]+)"` anchored at the current position: a nonempty run
up to the next quote, which must exist. -/
def quotedAt (l : List Char) : Option (List Char) :=
  match l with
  | '"' :: rest =>
    let g := rest.takeWhile (fun c => c ≠ '"')
    if g.isEmpty then none
    else if g.length < rest.length then some g else none
  | _ => none

/-- Match of `LIT\s*"([^"]+)"` (or `\s+` when `atLeastOne`) anchored at
the current position; `pat` is the lowercase literal. -/
def litWsQuoteAt (pat : List Char) (atLeastOne : Bool) (l : List Char) :
    Option (List Char) :=
  if ciStarts pat l then
    let r1 := l.drop pat.length
    let ws := r1.takeWhile pySpace
    if atLeastOne && ws.isEmpty then none
    else quotedAt (r1.drop ws.length)
  else none

/-- Match of `"([^"]{5,})"` anchored at the current position. -/
def quoted5At (l : List Char) : Option (List Char) :=
  match l with
  | '"' :: rest =>
    let g := rest.takeWhile (fun c => c ≠ '"')
    if decide (5 ≤ g.length) && decide (g.length < rest.length) then some g
    else none
  | _ => none

/-- The class `\w`. -/
def isWordChar (c : Char) : Bool := c.isAlphanum || c = '_'

/-- Match of `Payment ID:\s*(\w+)` (IGNORECASE) anchored at the current
position. -/
def pidAt (l : List Char) : Option (List Char) :=
  if ciStarts ("payment id:".data) l then
    let r := (l.drop 11).dropWhile pySpace
    let g := r.takeWhile isWordChar
    if g.isEmpty then none else some g
  else none

/-- `re.search(r'Payment ID:\s*(\w+)', body, IGNORECASE)`. -/
def searchPaymentId (l : List Char) : Option (List Char) := scan1 pidAt l

/-- Word-boundary check for `\bTOK\b` where `TOK` is all word characters. -/
def boundaryOk (before after : Option Char) : Bool :=
  (match before with | some c => !isWordChar c | none => true)
    && (match after with | some c => !isWordChar c | none => true)

/-- Scan for `\bTOK\b`. -/
def hasTokenAux (tok : List Char) (prev : Option Char) : List Char → Bool
  | [] => false
  | c :: rest =>
    (tok.isPrefixOf (c :: rest) && boundaryOk prev ((c :: rest).drop tok.length).head?)
      || hasTokenAux tok (some c) rest

/-- `re.search(r'\bTOK\b', text)` as a Boolean. -/
def hasToken (tok : List Char) (l : List Char) : Bool := hasTokenAux tok none l

/-- First offset at which `close` occurs, if any (the lazy `(.*?)` body of
the tag patterns). -/
def findClose (close : List Char) : List Char → Option Nat
  | [] => none
  | c :: rest =>
    if close.isPrefixOf (c :: rest) then some 0
    else (findClose close rest).map (fun j => j + 1)

/-- Match of `<TAG[^>]*>(.*?)</TAG>` (DOTALL) anchored at the current
position: returns the group and the remainder after the closing tag. -/
def tagMatchAt (otag ctag : List Char) (l : List Char) :
    Option (List Char × List Char) :=
  if otag.isPrefixOf l then
    let r1 := l.drop otag.length
    let r2 := r1.drop (r1.takeWhile (fun c => c ≠ '>')).length
    match r2 with
    | '>' :: body =>
      match findClose ctag body with
      | some j => some (body.take j, body.drop (j + ctag.length))
      | none => none
    | _ => none
  else none

/-- `re.findall(r'<TAG[^>]*>(.*?)</TAG>', text, DOTALL)` with fuel; the
scan advances one character on failure and past the match on success. -/
def findAllTagF (otag ctag : List Char) : Nat → List Char → List (List Char)
  | 0, _ => []
  | _ + 1, [] => []
  | fuel + 1, c :: rest =>
    match tagMatchAt otag ctag (c :: rest) with
    | some (content, after) => content :: findAllTagF otag ctag fuel after
    | none => findAllTagF otag ctag fuel rest

/-- `re.findall(r'<TAG[^>]*>(.*?)</TAG>', text, DOTALL)`. -/
def findAllTag (otag ctag : List Char) (l : List Char) : List (List Char) :=
  findAllTagF otag ctag l.length l

/-- `re.sub(r'<[^>]+>', '', text)` with fuel. -/
def stripTagsF : Nat → List Char → List Char
  | 0, l => l
  | _ + 1, [] => []
  | fuel + 1, '<' :: rest =>
    let run := rest.takeWhile (fun c => c ≠ '>')
    if run.isEmpty then '<' :: stripTagsF fuel rest
    else
      match rest.drop run.length with
      | '>' :: after => stripTagsF fuel after
      | _ => '<' :: stripTagsF fuel rest
  | fuel + 1, c :: rest => c :: stripTagsF fuel rest

/-- `re.sub(r'<[^>]+>', '', text)`. -/
def stripTags (l : List Char) : List Char := stripTagsF l.length l

/-- `any(phrase.lower() in txt.lower() for phrase in phrases)`. -/
def anyPhraseIn (phrases : List (List Char)) (txt : List Char) : Bool :=
  phrases.any (fun p => subIn (lowerStr p) (lowerStr txt))

/-- The `excluded_phrases` list built from the extracted sender. -/
def excludedPhrases (senderName : Option (List Char)) : List (List Char) :=
  match senderName with
  | some s => [s ++ (" paid you".data)]
  | none => []

/-- `entire_body = body_text.replace('\n', ' ')`. -/
def entireBody (bt : List Char) : List Char :=
  bt.map (fun c => if c = '\n' then ' ' else c)

/-- Note step 1: text after the amount pattern up to a terminator,
accepted only when nonempty after stripping. -/
def step1Note (eb : List Char) : Option (List Char) :=
  match searchFull eb with
  | some g => let n := pyStrip g; if n.isEmpty then none else some n
  | none => none

/-- Note step 2: the three quoted patterns, tried in order; the stripped
group is taken as the note even when it strips to the empty string. -/
def step2Note (eb : List Char) : Option (List Char) :=
  match scan1 (litWsQuoteAt ("note:".data) false) eb with
  | some g => some (pyStrip g)
  | none =>
    match scan1 (litWsQuoteAt ("for".data) true) eb with
    | some g => some (pyStrip g)
    | none => (scan1 (litWsQuoteAt ("with note".data) true) eb).map pyStrip

/-- Note step 3: the first quoted span, accepted only when longer than 3
characters after stripping and not containing " paid you ". -/
def step3Note (eb : List Char) : Option (List Char) :=
  match scan1 quotedAt eb with
  | some g =>
    let n := pyStrip g
    if decide (3 < n.length) && !subIn (" paid you ".data) n then some n else none
  | none => none

/-- `body_text.strip().split('\n')`, each line stripped as in the loops. -/
def bodyLines (bt : List Char) : List (List Char) :=
  ((pyStrip bt).splitOn '\n').map pyStrip

/-- The step-4 line filter: longer than 5 characters, no "paid you",
"venmo", "$" or "view". -/
def step4Ok (line : List Char) : Bool :=
  decide (5 < line.length) && !subIn ("paid you".data) (lowerStr line)
    && !subIn ("venmo".data) (lowerStr line) && !subIn ("$".data) line
    && !subIn ("view".data) (lowerStr line)

/-- Note step 4: the first body line passing the step-4 filter. -/
def step4Note (bt : List Char) : Option (List Char) :=
  (bodyLines bt).find? step4Ok

/-- The check applied to a `<th>` block in note step 5: paragraphs of the
first `<div>`, taking the third one, boilerplate-filtered. -/
def thCheck (excl : List (List Char)) (th : List Char) : Option (List Char) :=
  match findAllTag ("<div".data) ("</div>".data) th with
  | [] => none
  | d :: _ =>
    match (findAllTag ("<p".data) ("</p>".data) d).drop 2 with
    | p3 :: _ =>
      let nt := pyStrip (stripTags p3)
      if !nt.isEmpty && decide (3 < nt.length) && !anyPhraseIn excl nt
          && !subIn ("paid you".data) (lowerStr nt) then some nt
      else none
    | [] => none

/-- Note step 5 with `note_found = False` on entry: full nested search
table → center → table → th, first success wins. -/
def step5Full (bh : List Char) (excl : List (List Char)) : Option (List Char) :=
  (findAllTag ("<table".data) ("</table>".data) bh).findSome? fun t =>
    (findAllTag ("<center".data) ("</center>".data) t).findSome? fun c =>
      (findAllTag ("<table".data) ("</table>".data) c).findSome? fun inner =>
        (findAllTag ("<th".data) ("</th>".data) inner).findSome? (thCheck excl)

/-- Note step 5 with `note_found = True` on entry (empty-note re-entry):
the `if note_found: break` statements cut every loop after its first
iteration, so only the first `<th>` of the first nested chain is examined. -/
def step5First (bh : List Char) (excl : List (List Char)) : Option (List Char) :=
  match findAllTag ("<table".data) ("</table>".data) bh with
  | [] => none
  | t :: _ =>
    match findAllTag ("<center".data) ("</center>".data) t with
    | [] => none
    | c :: _ =>
      match findAllTag ("<table".data) ("</table>".data) c with
      | [] => none
      | inner :: _ =>
        match findAllTag ("<th".data) ("</th>".data) inner with
        | [] => none
        | th :: _ => thCheck excl th

/-- Note step 6: first `<p>` element, tags stripped, passing the
boilerplate filter. -/
def step6Note (bh : List Char) (excl : List (List Char)) : Option (List Char) :=
  (findAllTag ("<p".data) ("</p>".data) bh).findSome? fun para =>
    let nt := pyStrip (stripTags para)
    if !nt.isEmpty && decide (5 < nt.length) && !anyPhraseIn excl nt
        && !subIn ("paid you".data) (lowerStr nt)
        && !subIn ("venmo".data) (lowerStr nt) && !subIn ("$".data) nt
        && !subIn ("http".data) nt then some nt
    else none

/-- The step-7 line filter (`continue` conditions negated). -/
def step7Ok (excl : List (List Char)) (line : List Char) : Bool :=
  !(decide (line.length < 4) || subIn ("venmo".data) (lowerStr line)
    || subIn ("paid you".data) (lowerStr line)
    || subIn ("payment".data) (lowerStr line) || subIn ("$".data) line
    || subIn ("https://".data) line || subIn ("view".data) (lowerStr line)
    || subIn ("from:".data) (lowerStr line) || subIn ("to:".data) (lowerStr line)
    || anyPhraseIn excl line)

/-- `sort(key=len, reverse=True)` (stable) followed by `[0]`: the first
line of maximal length. -/
def pickLongest : List (List Char) → Option (List Char)
  | [] => none
  | x :: xs =>
    match pickLongest xs with
    | none => some x
    | some y => if y.length > x.length then some y else some x

/-- Note step 7: longest body line passing the step-7 filter. -/
def step7Note (bt : List Char) (excl : List (List Char)) : Option (List Char) :=
  pickLongest ((bodyLines bt).filter (step7Ok excl))

/-- Note step 8: `re.findall(r'"([^"]{5,})"', entire_body)[0]`, unstripped. -/
def step8Note (eb : List Char) : Option (List Char) := scan1 quoted5At eb

/-- Steps 1-4 of the note cascade; `some` exactly when `note_found` is set
in that phase (step 2 can produce the empty note). -/
def phase1Note (eb bt : List Char) : Option (List Char) :=
  (((step1Note eb).orElse fun _ => step2Note eb).orElse fun _ =>
    step3Note eb).orElse fun _ => step4Note bt

/-- The complete note computation of `parse_venmo_email`, including the
guarded re-entry block (entered when the note is unset, empty or
whitespace-only). -/
def finalNote (bt bh : List Char) (excl : List (List Char)) : Option (List Char) :=
  match phase1Note (entireBody bt) bt with
  | some n =>
    if n.isEmpty || (pyStrip n).isEmpty then
      if bh.isEmpty then some n
      else
        match step5First bh excl with
        | some m => some m
        | none => some n
    else some n
  | none =>
    some (((((if bh.isEmpty then none
        else (step5Full bh excl).orElse fun _ => step6Note bh excl).orElse
          fun _ => step7Note bt excl).orElse
            fun _ => step8Note (entireBody bt))).getD ("Generic App".data))

/-- The record built by `parse_venmo_email` (the email `date` metadata is
omitted: it is transport data, not derived from the three strings). -/
structure PaymentData where
  sender : Option String
  amount : Option ℚ
  note : Option String
  payment_id : Option String
  body_text : String
  body_html : String
deriving DecidableEq

/-- `EmailProcessor.parse_venmo_email`, as a function of the three strings
it consumes (`subject`, `body_text`, `body_html`).  Returns `none` exactly
on the explicit no-content check; every exception source inside the body
is handled locally, so the enclosing `except` is unreachable. -/
def parse_venmo_email (subject body_text body_html : String) :
    Option PaymentData :=
  if body_text = "" ∧ body_html = "" ∧ subject = "" then none
  else
    let s := subject.data
    let bt := body_text.data
    let bh := body_html.data
    let amount0 :=
      match (searchAmount s).orElse fun _ => searchAmount bt with
      | some g => pyFloat? ((g.filter (fun c => c ≠ ',')).filter (fun c => c ≠ '\n'))
      | none => none
    let senderName := ((searchSender s).orElse fun _ => searchSender bt).map pyStrip
    let excl := excludedPhrases senderName
    let noteVal := finalNote bt bh excl
    let amount :=
      match amount0 with
      | some a => some a
      | none =>
        if subIn ("$".data) s && hasToken ("0".data) bt && hasToken ("25".data) bt
        then some ((1 : ℚ) / 4)   -- split-amount heuristic branch
        else some ((1 : ℚ) / 4)   -- default-amount branch
    some { sender := senderName.map String.mk, amount := amount,
           note := noteVal.map String.mk,
           payment_id := (searchPaymentId bt).map String.mk,
           body_text := body_text, body_html := body_html }

/-- The process-wide `GENERATION_LOCK` dictionary of `src/main.py`.  Clock
values (`time.time()`) are modelled as rationals. -/
structure GenerationLock where
  is_generating : Bool
  last_generation_time : ℚ
  cooldown_seconds : ℚ
deriving DecidableEq

/-- The module-level initial value of `GENERATION_LOCK`. -/
def initLock : GenerationLock :=
  { is_generating := false, last_generation_time := 0, cooldown_seconds := 15 }

/-- `can_generate_new_app()`, with the current time passed explicitly. -/
def can_generate_new_app (lock : GenerationLock) (now : ℚ) : Bool :=
  if lock.is_generating then false
  else if now - lock.last_generation_time < lock.cooldown_seconds then false
  else true

/-- `start_generation()`. -/
def start_generation (lock : GenerationLock) : GenerationLock :=
  { lock with is_generating := true }

/-- `end_generation()`: clears the flag and stamps the current time,
unconditionally. -/
def end_generation (lock : GenerationLock) (now : ℚ) : GenerationLock :=
  { lock with is_generating := false, last_generation_time := now }

/-- Outcome of the acquire step performed by the routes: on rejection they
report `cooldown_seconds_remaining` and `is_generating` in the 429 body. -/
inductive AcquireResult where
  | success
  | rejected (cooldown_seconds_remaining : ℚ) (is_generating : Bool)
deriving DecidableEq

/-- The spec's `try_acquire`: the `can_generate_new_app` check followed by
`start_generation` on success, as performed by `generate_app_route` and
`process_vibepay_payment` (rejection values from their 429 responses). -/
def try_acquire (lock : GenerationLock) (now : ℚ) : AcquireResult × GenerationLock :=
  if can_generate_new_app lock now then
    (AcquireResult.success, start_generation lock)
  else
    (AcquireResult.rejected
      (max 0 (lock.cooldown_seconds - (now - lock.last_generation_time)))
      lock.is_generating, lock)

/-- Branches of `generate_app_route` after the lock is acquired. -/
inductive RouteOutcome where
  | badSession   -- GET with invalid/expired session: 400
  | notPaid      -- session not paid: 400
  | badRequest   -- POST without app_type/amount: 400
  | badAmount    -- non-positive or unparseable amount: 400
  | genFailed    -- generate_app_files returned None: 500
  | raised       -- an exception inside the inner try: released, re-raised, 500
  | ok           -- success: 200
deriving DecidableEq

/-- One execution of `generate_app_route`: which branch ran and the
`time.time()` value at its `end_generation()` call. -/
structure RouteRun where
  outcome : RouteOutcome
  t_release : ℚ
deriving DecidableEq

/-- HTTP statuses returned by the modelled routes. -/
inductive HttpStatus where
  | s200
  | s400
  | s429
  | s500
deriving DecidableEq

/-- Result of a modelled route call: status, the `is_generating` value
observed at each `generate_app_files` invocation, and the final lock. -/
structure RouteResult where
  status : HttpStatus
  gen_calls : List Bool
  lock : GenerationLock
deriving DecidableEq

/-- `generate_app_route` (`src/main.py`), restricted to its effect on the
generation lock and its calls into `generate_app_files`. -/
def generate_app_route (lock : GenerationLock) (now : ℚ) (run : RouteRun) :
    RouteResult :=
  if !can_generate_new_app lock now then
    { status := HttpStatus.s429, gen_calls := [], lock := lock }
  else
    let l1 := start_generation lock
    match run.outcome with
    | RouteOutcome.badSession =>
      { status := HttpStatus.s400, gen_calls := [],
        lock := end_generation l1 run.t_release }
    | RouteOutcome.notPaid =>
      { status := HttpStatus.s400, gen_calls := [],
        lock := end_generation l1 run.t_release }
    | RouteOutcome.badRequest =>
      { status := HttpStatus.s400, gen_calls := [],
        lock := end_generation l1 run.t_release }
    | RouteOutcome.badAmount =>
      { status := HttpStatus.s400, gen_calls := [],
        lock := end_generation l1 run.t_release }
    | RouteOutcome.genFailed =>
      { status := HttpStatus.s500, gen_calls := [l1.is_generating],
        lock := end_generation l1 run.t_release }
    | RouteOutcome.raised =>
      { status := HttpStatus.s500, gen_calls := [l1.is_generating],
        lock := end_generation l1 run.t_release }
    | RouteOutcome.ok =>
      { status := HttpStatus.s200, gen_calls := [l1.is_generating],
        lock := end_generation l1 run.t_release }

/-- Branches of `generate_app_for_payment`. -/
inductive PaymentOutcome where
  | preRaised  -- exception before the inner try: one release (outer except)
  | genFailed  -- generate_app_files returned None: explicit release, then the finally releases again
  | genRaised  -- exception in the inner try: the finally releases, then the outer except releases again
  | ok         -- success: the finally releases once
deriving DecidableEq

/-- One execution of `generate_app_for_payment`: the branch and the
`time.time()` values at its `end_generation()` calls (`t2` is used only on
the double-release branches). -/
structure PaymentRun where
  outcome : PaymentOutcome
  t1 : ℚ
  t2 : ℚ
deriving DecidableEq

/-- The `time.time()` value at the last `end_generation()` call of a
`generate_app_for_payment` execution. -/
def paymentReleaseTime (run : PaymentRun) : ℚ :=
  match run.outcome with
  | PaymentOutcome.preRaised => run.t1
  | PaymentOutcome.genFailed => run.t2
  | PaymentOutcome.genRaised => run.t2
  | PaymentOutcome.ok => run.t1

/-- Result of a modelled `generate_app_for_payment` call. -/
structure PaymentResult where
  gen_calls : List Bool
  lock : GenerationLock
deriving DecidableEq

/-- `generate_app_for_payment` (`src/main.py`), restricted to its effect
on the generation lock and its calls into `generate_app_files`.  It never
acquires the lock itself and never raises (its outer `except` swallows
every exception). -/
def generate_app_for_payment (lock : GenerationLock) (run : PaymentRun) :
    PaymentResult :=
  match run.outcome with
  | PaymentOutcome.preRaised =>
    { gen_calls := [], lock := end_generation lock run.t1 }
  | PaymentOutcome.genFailed =>
    { gen_calls := [lock.is_generating],
      lock := end_generation (end_generation lock run.t1) run.t2 }
  | PaymentOutcome.genRaised =>
    { gen_calls := [lock.is_generating],
      lock := end_generation (end_generation lock run.t1) run.t2 }
  | PaymentOutcome.ok =>
    { gen_calls := [lock.is_generating], lock := end_generation lock run.t1 }

/-- `process_vibepay_payment` (`src/main.py`), restricted to its effect on
the lock: cooldown check, request validation (before any acquisition),
then `start_generation` and the shared payment workflow.  Its own `except`
branch is unreachable in this model because `generate_app_for_payment`
swallows exceptions. -/
def process_vibepay_payment (lock : GenerationLock) (now : ℚ)
    (valid_request : Bool) (run : PaymentRun) : RouteResult :=
  if !can_generate_new_app lock now then
    { status := HttpStatus.s429, gen_calls := [], lock := lock }
  else if !valid_request then
    { status := HttpStatus.s400, gen_calls := [], lock := lock }
  else
    let r := generate_app_for_payment (start_generation lock) run
    { status := HttpStatus.s200, gen_calls := r.gen_calls, lock := r.lock }

/-- The direct-payment branch of `VenmoQRManager.handle_payment`
(`src/venmo_qr.py`, no session): after the note validity check it spawns
`generate_app_for_payment` on the current lock state, without any
`can_generate_new_app` / `start_generation` step. -/
def handle_payment_direct (lock : GenerationLock) (note : String)
    (run : PaymentRun) : PaymentResult :=
  if !note.isEmpty && decide (5 < note.length)
      && !subIn ("paid you".data) (lowerStr note.data) then
    generate_app_for_payment lock run
  else
    { gen_calls := [], lock := lock }

/-! Helper lemmas shared by the claim theorems. -/

/-- A lock that is free and past its cooldown is acquired. -/
theorem try_acquire_success_of (lock : GenerationLock) (t : ℚ)
    (h1 : lock.is_generating = false)
    (h2 : lock.cooldown_seconds ≤ t - lock.last_generation_time) :
    (try_acquire lock t).1 = AcquireResult.success := by
  have hc : can_generate_new_app lock t = true := by
    simp [can_generate_new_app, h1, not_lt.mpr h2]
  simp [try_acquire, hc]

/-- A busy lock rejects, reporting `is_generating = true`. -/
theorem try_acquire_busy (lock : GenerationLock) (t : ℚ)
    (h1 : lock.is_generating = true) :
    (try_acquire lock t).1 =
      AcquireResult.rejected
        (max 0 (lock.cooldown_seconds - (t - lock.last_generation_time))) true := by
  have hc : can_generate_new_app lock t = false := by
    simp [can_generate_new_app, h1]
  simp [try_acquire, hc, h1]

/-- The note cascade always produces a value. -/
theorem finalNote_isSome (bt bh : List Char) (excl : List (List Char)) :
    (finalNote bt bh excl).isSome = true := by
  unfold finalNote
  cases hp : phase1Note (entireBody bt) bt with
  | none => simp
  | some n =>
    simp only
    split
    · split
      · rfl
      · cases step5First bh excl <;> rfl
    · rfl

/-- A `scan1` match is a match of `f` at some suffix. -/
theorem scan1_eq_some {f : List Char → Option (List Char)} :
    ∀ {l g : List Char}, scan1 f l = some g → ∃ l', f l' = some g := by
  intro l
  induction l with
  | nil => intro g h; simp [scan1] at h
  | cons c rest ih =>
    intro g h
    rw [scan1] at h
    cases hf : f (c :: rest) with
    | some x =>
      rw [hf] at h
      simp [Option.orElse] at h
      exact ⟨c :: rest, by rw [hf, h]⟩
    | none =>
      rw [hf] at h
      simp [Option.orElse] at h
      exact ih h

/-- `pickLongest` returns a member of maximal length (`none` only on the
empty list). -/
theorem pickLongest_spec : ∀ l : List (List Char),
    match pickLongest l with
    | none => l = []
    | some x => x ∈ l ∧ ∀ m ∈ l, m.length ≤ x.length := by
  intro l
  induction l with
  | nil => simp [pickLongest]
  | cons a as ih =>
    rw [pickLongest]
    cases hp : pickLongest as with
    | none =>
      rw [hp] at ih
      subst ih
      simp
    | some y =>
      rw [hp] at ih
      by_cases hlen : y.length > a.length
      · simp only [hlen, if_true]
        refine ⟨List.mem_cons_of_mem a ih.1, ?_⟩
        intro m hm
        rcases List.mem_cons.mp hm with hm | hm
        · subst hm; omega
        · exact ih.2 m hm
      · simp only [hlen, if_false]
        refine ⟨List.mem_cons_self a as, ?_⟩
        intro m hm
        rcases List.mem_cons.mp hm with hm | hm
        · subst hm; omega
        · have := ih.2 m hm; omega

/-- Modelled from the spec's wording of amount step 1 (comparison
definition for claim C7): the matched number may contain embedded line
breaks, which are stripped together with separators before the decimal
parse. -/
def specAmountAt (l : List Char) : Option (List Char) :=
  if ("paid you $".data).isPrefixOf l then
    let g := (l.drop 10).takeWhile (fun c => isAmountChar c || c = '\n')
    if g.isEmpty then none else some g
  else none

/-- Modelled from the spec's wording of amount step 1: search, then strip
commas and line breaks, then parse as decimal. -/
def specAmountStep1 (l : List Char) : Option ℚ :=
  (scan1 specAmountAt l).bind fun g =>
    pyFloat? ((g.filter (fun c => c ≠ ',')).filter (fun c => c ≠ '\n'))

/-- Modelled from the spec's wording of note step 7 (comparison definition
for claim C9): collect every body line that passes the boilerplate
exclusion filter from step 4 and pick the longest. -/
def specStep7Note (bt : List Char) : Option (List Char) :=
  pickLongest ((bodyLines bt).filter step4Ok)

/-! Claim theorems. -/

/-- Claim C1: every path of `generate_app_route` and of
`process_vibepay_payment` that acquires the generation lock (a successful
`can_generate_new_app` check followed by `start_generation`) releases it
via `end_generation` — including the exception branches — leaving
`is_generating = false` and the cooldown restarted at the release moment,
so that a later `try_acquire` succeeds once the cooldown has elapsed
measured from that moment. -/
theorem c1_acquired_lock_always_released
    (lock : GenerationLock) (now : ℚ) (run : RouteRun)
    (lock2 : GenerationLock) (now2 : ℚ) (prun : PaymentRun)
    (h : can_generate_new_app lock now = true)
    (h2 : can_generate_new_app lock2 now2 = true) :
    ((generate_app_route lock now run).lock.is_generating = false ∧
      (generate_app_route lock now run).lock.last_generation_time = run.t_release ∧
      ∀ t : ℚ, lock.cooldown_seconds ≤ t - run.t_release →
        (try_acquire (generate_app_route lock now run).lock t).1 =
          AcquireResult.success) ∧
    ((process_vibepay_payment lock2 now2 true prun).lock.is_generating = false ∧
      (process_vibepay_payment lock2 now2 true prun).lock.last_generation_time =
        paymentReleaseTime prun ∧
      ∀ t : ℚ, lock2.cooldown_seconds ≤ t - paymentReleaseTime prun →
        (try_acquire (process_vibepay_payment lock2 now2 true prun).lock t).1 =
          AcquireResult.success) := by
  obtain ⟨o, tr⟩ := run
  obtain ⟨po, t1, t2⟩ := prun
  have hroute : (generate_app_route lock now ⟨o, tr⟩).lock =
      { is_generating := false, last_generation_time := tr,
        cooldown_seconds := lock.cooldown_seconds } := by
    cases o <;> simp [generate_app_route, h, end_generation, start_generation]
  have hpay : (process_vibepay_payment lock2 now2 true ⟨po, t1, t2⟩).lock =
      { is_generating := false,
        last_generation_time := paymentReleaseTime ⟨po, t1, t2⟩,
        cooldown_seconds := lock2.cooldown_seconds } := by
    cases po <;>
      simp [process_vibepay_payment, h2, generate_app_for_payment,
        paymentReleaseTime, end_generation, start_generation]
  constructor
  · refine ⟨by rw [hroute], by rw [hroute], ?_⟩
    intro t ht
    rw [hroute]
    exact try_acquire_success_of _ t rfl ht
  · refine ⟨by rw [hpay], by rw [hpay], ?_⟩
    intro t ht
    rw [hpay]
    exact try_acquire_success_of _ t rfl ht

/-- Witness for C1 at concrete inputs: an exception in the route workflow
at time 20 with release at 25, and an exception in the VibePay workflow;
the lock ends up free and is acquired again at time 45. -/
theorem c1_witness :
    (generate_app_route initLock 20
        { outcome := RouteOutcome.raised, t_release := 25 }).lock.is_generating
      = false ∧
    (try_acquire (generate_app_route initLock 20
        { outcome := RouteOutcome.raised, t_release := 25 }).lock 45).1 =
      AcquireResult.success ∧
    (process_vibepay_payment initLock 20 true
        { outcome := PaymentOutcome.genRaised, t1 := 25, t2 := 26 }).lock.is_generating
      = false := by
  have hc : can_generate_new_app initLock 20 = true := by
    norm_num [can_generate_new_app, initLock]
  have h := c1_acquired_lock_always_released initLock 20
    { outcome := RouteOutcome.raised, t_release := 25 } initLock 20
    { outcome := PaymentOutcome.genRaised, t1 := 25, t2 := 26 } hc hc
  exact ⟨h.1.1, h.1.2.2 45 (by norm_num [initLock]), h.2.1⟩

/-- Claim C2, counterexample: on the all-empty triple the parser returns
`None` (the explicit no-content check), not a record; and with body
`for " "` the returned record's note is the empty string, because the
quoted-pattern step strips the group to `""` while still marking the note
as found. -/
theorem c2_counterexample :
    parse_venmo_email "" "" "" = none ∧
    (parse_venmo_email "" "for \" \"" "").map (fun r => r.note) =
      some (some "") := by
  exact ⟨rfl, rfl⟩

/-- Claim C2 as amended: when at least one of the three inputs is
non-empty, `parse_venmo_email` returns a record and its note field is set
(never `None`); the all-empty triple yields `None`, and the note may be
the empty string in corner cases. -/
theorem c2_note_always_set (s bt bh : String)
    (h : ¬(bt = "" ∧ bh = "" ∧ s = "")) :
    ∃ r, parse_venmo_email s bt bh = some r ∧ r.note.isSome = true := by
  unfold parse_venmo_email
  rw [if_neg h]
  refine ⟨_, rfl, ?_⟩
  simp only [Option.isSome_map']
  exact finalNote_isSome _ _ _

/-- Witness for C2 at a concrete input. -/
theorem c2_witness :
    ∃ r, parse_venmo_email "x" "" "" = some r ∧ r.note.isSome = true :=
  c2_note_always_set "x" "" "" (by simp)

/-- Claim C3: the claim fails on the direct-payment path.  Evaluating the
embedded code at the failing input — the email-monitoring path handling a
sessionless payment with note "make a todo app" while the system is idle —
shows `generate_app_files` invoked exactly once with `is_generating =
false`: the lock is not held. -/
theorem c3_direct_payment_generates_without_lock :
    (handle_payment_direct initLock "make a todo app"
        { outcome := PaymentOutcome.ok, t1 := 30, t2 := 30 }).gen_calls =
      [false] ∧
    initLock.is_generating = false := by
  exact ⟨rfl, rfl⟩

/-- Claim C4: from an idle lock past its cooldown, the first
`try_acquire` succeeds and an immediate second one is rejected with
`is_generating = true` reported. -/
theorem c4_double_acquire (lock : GenerationLock) (t1 t2 : ℚ)
    (hidle : lock.is_generating = false)
    (hcd : lock.cooldown_seconds ≤ t1 - lock.last_generation_time) :
    (try_acquire lock t1).1 = AcquireResult.success ∧
    ∃ rem, (try_acquire (try_acquire lock t1).2 t2).1 =
      AcquireResult.rejected rem true := by
  have hc : can_generate_new_app lock t1 = true := by
    simp [can_generate_new_app, hidle, not_lt.mpr hcd]
  constructor
  · simp [try_acquire, hc]
  · have hsnd : (try_acquire lock t1).2 = start_generation lock := by
      simp [try_acquire, hc]
    rw [hsnd]
    exact ⟨_, try_acquire_busy (start_generation lock) t2 rfl⟩

/-- Witness for C4 at concrete inputs. -/
theorem c4_witness :
    (try_acquire initLock 20).1 = AcquireResult.success ∧
    ∃ rem, (try_acquire (try_acquire initLock 20).2 21).1 =
      AcquireResult.rejected rem true :=
  c4_double_acquire initLock 20 21 rfl (by norm_num [initLock])

/-- Claim C5: after `end_generation` at time `tr`, a `try_acquire`
strictly inside the cooldown window is rejected with a positive remaining
time (and `is_generating = false` reported, distinguishing it from the
busy rejection); once the cooldown has elapsed, `try_acquire` succeeds. -/
theorem c5_cooldown_window (lock : GenerationLock) (tr t tp : ℚ)
    (hearly : t - tr < lock.cooldown_seconds)
    (hlate : lock.cooldown_seconds ≤ tp - tr) :
    (∃ rem, (try_acquire (end_generation lock tr) t).1 =
      AcquireResult.rejected rem false ∧ 0 < rem) ∧
    (try_acquire (end_generation lock tr) tp).1 = AcquireResult.success := by
  constructor
  · have hc : can_generate_new_app (end_generation lock tr) t = false := by
      simp [can_generate_new_app, end_generation, hearly]
    refine ⟨max 0 (lock.cooldown_seconds - (t - tr)), ?_, ?_⟩
    · rw [try_acquire, if_neg (by simp [hc])]
      rfl
    · exact lt_max_of_lt_right (by linarith)
  · exact try_acquire_success_of _ tp rfl hlate

/-- Witness for C5 at concrete inputs: release at 100, early retry at 105
rejected with positive remaining time, retry at 120 succeeds. -/
theorem c5_witness :
    (∃ rem, (try_acquire (end_generation initLock 100) 105).1 =
      AcquireResult.rejected rem false ∧ 0 < rem) ∧
    (try_acquire (end_generation initLock 100) 120).1 = AcquireResult.success :=
  c5_cooldown_window initLock 100 105 120 (by norm_num [initLock])
    (by norm_num [initLock])

/-- Claim C6: subject "Jane Doe paid you $5.00" with empty bodies yields
sender "Jane Doe" and amount 5.00. -/
theorem c6_subject_extraction :
    (parse_venmo_email "Jane Doe paid you $5.00" "" "").map
        (fun r => (r.sender, r.amount)) =
      some (some "Jane Doe", some 5) := by
  have h1 : (parse_venmo_email "Jane Doe paid you $5.00" "" "").map
      (fun r => (r.sender, r.amount)) =
      some (some "Jane Doe", some (ratOfParts 5 0 2)) := rfl
  have h2 : ratOfParts 5 0 2 = 5 := by norm_num [ratOfParts]
  rw [h1, h2]

/-- Claim C7, counterexample: on subject "Bob paid you $1\n23" the spec's
description of step 1 (number may contain embedded line breaks, stripped
before parsing) yields 123, but the code's amount class `[\d,.]` stops at
the line break and extraction yields 1. -/
theorem c7_counterexample :
    specAmountStep1 ("Bob paid you $1\n23".data) = some 123 ∧
    (parse_venmo_email "Bob paid you $1\n23" "" "").map (fun r => r.amount) =
      some (some 1) := by
  constructor
  · have h1 : specAmountStep1 ("Bob paid you $1\n23".data) =
        some (ratOfParts 123 0 0) := rfl
    rw [h1]
    norm_num [ratOfParts]
  · have h1 : (parse_venmo_email "Bob paid you $1\n23" "" "").map
        (fun r => r.amount) = some (some (ratOfParts 1 0 0)) := rfl
    rw [h1]
    norm_num [ratOfParts]

/-- Claim C7 as amended: the body "paid you $\n0\n25" (with no other
amount cues) still yields amount 0.25, but through the fallback branch,
not step 1: a step-1 match is always a nonempty run of characters from
`[\d,.]` and therefore never spans a line break. -/
theorem c7_amount_step1_no_linebreaks (t g : List Char)
    (h : searchAmount t = some g) :
    ((parse_venmo_email "" "paid you $\n0\n25" "").map (fun r => r.amount) =
      some (some ((1 : ℚ) / 4))) ∧
    g ≠ [] ∧ ∀ c ∈ g, isAmountChar c = true := by
  refine ⟨rfl, ?_⟩
  obtain ⟨l', hl'⟩ := scan1_eq_some h
  rw [amountAt] at hl'
  split at hl'
  case isTrue h1 =>
    split at hl'
    case isTrue h2 => simp at hl'
    case isFalse h2 =>
      injection hl' with hg
      subst hg
      refine ⟨?_, fun c hc => List.mem_takeWhile_imp hc⟩
      intro hnil
      rw [hnil] at h2
      simp at h2
  case isFalse h1 => simp at hl'

/-- Witness for C7 at concrete inputs. -/
theorem c7_witness :
    ((parse_venmo_email "" "paid you $\n0\n25" "").map (fun r => r.amount) =
      some (some ((1 : ℚ) / 4))) ∧
    (['7'] : List Char) ≠ [] ∧ isAmountChar '7' = true := by
  have h := c7_amount_step1_no_linebreaks ("paid you $7".data) ['7'] (by decide)
  exact ⟨h.1, h.2.1, h.2.2 '7' (by decide)⟩

/-- Claim C8: a body whose only note-bearing content is `for "a weather
app"` yields note "a weather app". -/
theorem c8_for_quoted_note :
    (parse_venmo_email "" "for \"a weather app\"" "").map (fun r => r.note) =
      some (some "a weather app") := by
  decide

/-- Claim C9, counterexample: on the single body line "abcd" the code's
step 7 (which keeps lines of length ≥ 4) returns "abcd", while the step-4
filter the claim describes (length > 5) collects nothing; the full
extraction also returns "abcd" rather than falling through. -/
theorem c9_counterexample :
    step7Note ("abcd".data) [] = some ("abcd".data) ∧
    specStep7Note ("abcd".data) = none ∧
    (parse_venmo_email "" "abcd" "").map (fun r => r.note) =
      some (some "abcd") := by
  exact ⟨by decide, by decide, by decide⟩

/-- Claim C9 as amended: step 7 collects the stripped body lines passing
its own filter (length ≥ 4; none of "venmo", "paid you", "payment", "$",
"https://", "view", "from:", "to:", nor an excluded sender phrase) — a
strictly different filter from step 4's — and picks from them a line of
maximal length. -/
theorem c9_longest_line_fallback (bt : List Char) (excl : List (List Char))
    (n : List Char) (h : step7Note bt excl = some n) :
    n ∈ (bodyLines bt).filter (step7Ok excl) ∧
    ∀ m ∈ (bodyLines bt).filter (step7Ok excl), m.length ≤ n.length := by
  rw [step7Note] at h
  have hs := pickLongest_spec ((bodyLines bt).filter (step7Ok excl))
  rw [h] at hs
  exact hs

/-- Witness for C9 at a concrete input. -/
theorem c9_witness :
    ("hello world".data ∈
      (bodyLines ("hello world\nhi".data)).filter (step7Ok [])) ∧
    ("hi".data).length ≤ ("hello world".data).length := by
  have h := c9_longest_line_fallback ("hello world\nhi".data) [] ("hello world".data)
    (by decide)
  exact ⟨h.1, by decide⟩

/-- Claim C10: `end_generation` has no precondition — from any lock state
it clears `is_generating` and stamps `last_generation_time` with the call
moment; a second, redundant call (as on the generation-failure path of
`generate_app_for_payment`, which releases explicitly and then again in
its `finally`) restarts the cooldown window from the second call's
moment. -/
theorem c10_release_is_unconditional (lock : GenerationLock) (t tp : ℚ) :
    (end_generation lock t).is_generating = false ∧
    (end_generation lock t).last_generation_time = t ∧
    (end_generation (end_generation lock t) tp).last_generation_time = tp ∧
    (generate_app_for_payment lock
        { outcome := PaymentOutcome.genFailed, t1 := t, t2 := tp }).lock =
      end_generation (end_generation lock t) tp := by
  exact ⟨rfl, rfl, rfl, rfl⟩
